import Mathlib

/-!
Verification of the OAuth-proxy test harness
(`test_oauth_proxy_gateway_llm.py`, with the matching helper functions of
`oauth_proxy_test.py`) against its natural-language specification.

The Python source is shallowly embedded: pure helpers become Lean
functions, HTTP responses of the servers under test become explicit
parameters (status code plus the JSON fields the harness reads), the
shared class-level slot `(CallbackHandler.received_code,
CallbackHandler.received_state)` becomes an explicit state value, the
orchestrator's real-time polling loop becomes a loop over poll indices
(one index per 500 ms sleep), and `secrets.token_bytes(n)` becomes a
byte-list argument.  Machine integers do not occur; SHA-256 words are
naturals reduced modulo 2^32.
-/

namespace OAuthProxy

/-- Python truthiness of an optional string value (`if x:` where `x` is
`None` or a `str`): `None` and the empty string are falsy. -/
def pyTruthy : Option String → Bool
  | none => false
  | some s => s != ""

/-- Python `str.isspace` characters that `str.strip()` removes, restricted
to ASCII (the harness only ever strips console input). -/
def pyWhitespace (c : Char) : Bool :=
  c = ' ' || c = '\t' || c = '\n' || c = '\r' || c = Char.ofNat 11 || c = Char.ofNat 12

/-- Python `str.strip()` with no arguments: drop leading and trailing
whitespace. -/
def pyStrip (s : String) : String :=
  String.mk (((s.data.dropWhile pyWhitespace).reverse.dropWhile pyWhitespace).reverse)

/-! ## URL-safe base64 (`base64.urlsafe_b64encode`) -/

/-- The URL-safe base64 alphabet used by `base64.urlsafe_b64encode`. -/
def b64Alphabet : List Char :=
  "ABCDEFGHIJKLMNOPQRSTUVWXYZabcdefghijklmnopqrstuvwxyz0123456789-_".data

/-- Character for a 6-bit group. -/
def b64Char (n : Nat) : Char := b64Alphabet.getD n 'A'

/-- Padded URL-safe base64 text of a byte list, as produced by
`base64.urlsafe_b64encode(bs).decode('utf-8')`. -/
def b64Encode : List Nat → List Char
  | [] => []
  | [b1] => [b64Char (b1 / 4), b64Char (b1 % 4 * 16), '=', '=']
  | [b1, b2] => [b64Char (b1 / 4), b64Char (b1 % 4 * 16 + b2 / 16), b64Char (b2 % 16 * 4), '=']
  | b1 :: b2 :: b3 :: rest =>
    b64Char (b1 / 4) :: b64Char (b1 % 4 * 16 + b2 / 16) ::
      b64Char (b2 % 16 * 4 + b3 / 64) :: b64Char (b3 % 64) :: b64Encode rest

/-- Python `str.rstrip('=')`: drop every trailing `=`. -/
def rstripEq (l : List Char) : List Char :=
  (l.reverse.dropWhile (· = '=')).reverse

/-- The composite `base64.urlsafe_b64encode(bs).decode('utf-8').rstrip('=')`
used for the PKCE verifier, the PKCE challenge and the `state` value. -/
def b64urlNoPad (bs : List Nat) : String :=
  String.mk (rstripEq (b64Encode bs))

/-! ## SHA-256 (`hashlib.sha256(...).digest()`) -/

/-- 2^32, the word modulus of SHA-256. -/
def w32 : Nat := 4294967296

/-- Rotate a 32-bit word right by `n` bits. -/
def rotr (n x : Nat) : Nat := ((x >>> n) ||| (x <<< (32 - n))) % w32

def shaCh (x y z : Nat) : Nat := (x &&& y) ^^^ ((x ^^^ (w32 - 1)) &&& z)

def shaMaj (x y z : Nat) : Nat := (x &&& y) ^^^ (x &&& z) ^^^ (y &&& z)

def bigSigma0 (x : Nat) : Nat := rotr 2 x ^^^ rotr 13 x ^^^ rotr 22 x

def bigSigma1 (x : Nat) : Nat := rotr 6 x ^^^ rotr 11 x ^^^ rotr 25 x

def smallSigma0 (x : Nat) : Nat := rotr 7 x ^^^ rotr 18 x ^^^ (x >>> 3)

def smallSigma1 (x : Nat) : Nat := rotr 17 x ^^^ rotr 19 x ^^^ (x >>> 10)

/-- The round constants K of SHA-256. -/
def shaK : List Nat :=
  [1116352408, 1899447441, 3049323471, 3921009573, 961987163,
   1508970993, 2453635748, 2870763221, 3624381080, 310598401,
   607225278, 1426881987, 1925078388, 2162078206, 2614888103,
   3248222580, 3835390401, 4022224774, 264347078, 604807628,
   770255983, 1249150122, 1555081692, 1996064986, 2554220882,
   2821834349, 2952996808, 3210313671, 3336571891, 3584528711,
   113926993, 338241895, 666307205, 773529912, 1294757372,
   1396182291, 1695183700, 1986661051, 2177026350, 2456956037,
   2730485921, 2820302411, 3259730800, 3345764771, 3516065817,
   3600352804, 4094571909, 275423344, 430227734, 506948616,
   659060556, 883997877, 958139571, 1322822218, 1537002063,
   1747873779, 1955562222, 2024104815, 2227730452, 2361852424,
   2428436474, 2756734187, 3204031479, 3329325298]

/-- The initial hash value H0 of SHA-256. -/
def shaH0 : List Nat :=
  [1779033703, 3144134277, 1013904242, 2773480762,
   1359893119, 2600822924, 528734635, 1541459225]

/-- Big-endian 8-byte encoding of the message bit length. -/
def beBytes8 (n : Nat) : List Nat :=
  [n >>> 56 % 256, n >>> 48 % 256, n >>> 40 % 256, n >>> 32 % 256,
   n >>> 24 % 256, n >>> 16 % 256, n >>> 8 % 256, n % 256]

/-- SHA-256 padding: append `0x80`, zero bytes up to 56 mod 64, then the
bit length as 8 big-endian bytes. -/
def padMsg (msg : List Nat) : List Nat :=
  msg ++ 128 :: List.replicate ((55 + 64 - msg.length % 64) % 64) 0 ++ beBytes8 (8 * msg.length)

/-- Split a byte list into 64-byte blocks. -/
def chunks64 (l : List Nat) : List (List Nat) :=
  if h : l = [] then []
  else l.take 64 :: chunks64 (l.drop 64)
termination_by l.length
decreasing_by
  simp only [List.length_drop]
  exact Nat.sub_lt (List.length_pos.mpr h) (by decide)

/-- Big-endian 32-bit words of a block. -/
def toWords : List Nat → List Nat
  | b1 :: b2 :: b3 :: b4 :: rest => (((b1 * 256 + b2) * 256 + b3) * 256 + b4) :: toWords rest
  | _ => []

/-- Extend the 16-word message schedule by `n` further words. -/
def extendW (w : List Nat) : Nat → List Nat
  | 0 => w
  | n + 1 =>
    let v := extendW w n
    let t := v.length
    v ++ [(smallSigma1 (v.getD (t - 2) 0) + v.getD (t - 7) 0 +
           smallSigma0 (v.getD (t - 15) 0) + v.getD (t - 16) 0) % w32]

/-- One round of the SHA-256 compression function on the state
`[a, b, c, d, e, f, g, h]`. -/
def shaRound (k w : Nat) (s : List Nat) : List Nat :=
  match s with
  | [a, b, c, d, e, f, g, h] =>
    let t1 := (h + bigSigma1 e + shaCh e f g + k + w) % w32
    let t2 := (bigSigma0 a + shaMaj a b c) % w32
    [(t1 + t2) % w32, a, b, c, (d + t1) % w32, e, f, g]
  | s => s

/-- Process one 64-byte block. -/
def shaBlock (h : List Nat) (block : List Nat) : List Nat :=
  let w := extendW (toWords block) 48
  let s := (shaK.zip w).foldl (fun st kw => shaRound kw.1 kw.2 st) h
  List.zipWith (fun a b => (a + b) % w32) h s

/-- SHA-256 digest (as a list of 32 bytes) of a byte list, the value of
`hashlib.sha256(msg).digest()`. -/
def sha256 (msg : List Nat) : List Nat :=
  ((chunks64 (padMsg msg)).foldl shaBlock shaH0).foldr
    (fun w acc => w >>> 24 % 256 :: w >>> 16 % 256 :: w >>> 8 % 256 :: w % 256 :: acc) []

/-! ## PKCE generation (`generate_pkce`, identical in both source files) -/

/-- UTF-8 bytes of an ASCII string (`s.encode('utf-8')`); every string the
harness hashes is ASCII, where UTF-8 is the identity on character codes. -/
def asciiBytes (s : String) : List Nat := s.data.map Char.toNat

/-- The function `generate_pkce` with `secrets.token_bytes(32)` modelled as
the byte-list argument `randomBytes`.  Returns
`(code_verifier, code_challenge, code_challenge_method)`. -/
def generate_pkce (randomBytes : List Nat) : String × String × String :=
  let verifier := b64urlNoPad randomBytes
  let challenge := b64urlNoPad (sha256 (asciiBytes verifier))
  (verifier, challenge, "S256")

/-! ## Query-string parsing (`urllib.parse.urlparse` / `parse_qs`)

Modelled byte-for-byte after CPython with default arguments, at the level
of character lists.  `unquote` decodes each `%XX` escape to one character
of that code (CPython additionally UTF-8-decodes multi-byte sequences;
every value these theorems touch is ASCII, where the two agree). -/

/-- Split at the first occurrence of `sep`, Python `str.split(sep, 1)`;
`none` when `sep` does not occur. -/
def splitFirst (sep : Char) : List Char → Option (List Char × List Char)
  | [] => none
  | c :: cs =>
    if c = sep then some ([], cs)
    else
      match splitFirst sep cs with
      | none => none
      | some (a, b) => some (c :: a, b)

/-- Full split on a separator, Python `str.split(sep)`. -/
def splitAll (sep : Char) : List Char → List (List Char)
  | [] => [[]]
  | c :: cs =>
    match splitAll sep cs with
    | [] => [[]]
    | h :: t => if c = sep then [] :: h :: t else (c :: h) :: t

def isHexChar (c : Char) : Bool :=
  c.isDigit || ('a' ≤ c && c ≤ 'f') || ('A' ≤ c && c ≤ 'F')

def hexVal (c : Char) : Nat :=
  if c.isDigit then c.toNat - 48
  else if 'a' ≤ c && c ≤ 'f' then c.toNat - 87
  else c.toNat - 55

/-- Percent-decoding of `urllib.parse.unquote`: a valid `%XX` escape
becomes the character with code `XX`; an invalid escape is kept verbatim. -/
def pctDecode : List Char → List Char
  | [] => []
  | '%' :: h :: lo :: rest =>
    if isHexChar h && isHexChar lo then
      Char.ofNat (16 * hexVal h + hexVal lo) :: pctDecode rest
    else '%' :: pctDecode (h :: lo :: rest)
  | '%' :: rest => '%' :: pctDecode rest
  | c :: rest => c :: pctDecode rest

/-- Python `urllib.parse.unquote_plus`: `+` becomes a space, then percent
escapes are decoded. -/
def unquote_plus (l : List Char) : String :=
  String.mk (pctDecode (l.map fun c => if c = '+' then ' ' else c))

/-- Python `urllib.parse.parse_qsl` with default arguments: fields are
split on `&`; an empty field, a field without `=`, and a field whose raw
value is empty are all dropped; names and values are decoded. -/
def parse_qsl (q : List Char) : List (String × String) :=
  (splitAll '&' q).foldr
    (fun field acc =>
      match splitFirst '=' field with
      | none => acc
      | some (n, v) => if v = [] then acc else (unquote_plus n, unquote_plus v) :: acc)
    []

/-- First value stored under a key: `parse_qs(q).get(k, [None])[0]`. -/
def qsFirst (q : List Char) (k : String) : Option String :=
  match (parse_qsl q).find? (fun p => p.1 == k) with
  | some p => some p.2
  | none => none

/-- The `query` component of `urllib.parse.urlparse(path)`: the part after
the first `?` of the part before the first `#`.  (Scheme and netloc
splitting in CPython never consume a `?` or `#`, so this agrees with
`urlparse(path).query` on every input.) -/
def urlQuery (path : List Char) : List Char :=
  let beforeFrag :=
    match splitFirst '#' path with
    | some (a, _) => a
    | none => path
  match splitFirst '?' beforeFrag with
  | some (_, q) => q
  | none => []

/-! ## Callback Listener (`CallbackHandler.do_GET`) -/

/-- The class-level result slot
`(CallbackHandler.received_code, CallbackHandler.received_state)`. -/
abbrev Slot := Option String × Option String

/-- The HTML page written by `do_GET`, abstracted to the template used and
the values interpolated into it. -/
inductive Page
  | errorPage (error description : String)
  | successPage
  | noCodePage
deriving DecidableEq, Repr

/-- Status line and page of the HTTP response sent by `do_GET`. -/
structure HttpResponse where
  status : Nat
  page : Page
deriving DecidableEq, Repr

/-- The handler `CallbackHandler.do_GET` as a function from the request
path (`self.path`) and the current slot to the new slot and the response:
a truthy `error` query parameter sends a 400 error page and clears
`received_code` (leaving `received_state` untouched); otherwise a truthy
`code` parameter stores `code` and `state` and sends the 200 success page;
otherwise the slot is unchanged and a 400 no-code page is sent. -/
def do_GET (path : String) (st : Slot) : Slot × HttpResponse :=
  let q := urlQuery path.data
  let code := qsFirst q "code"
  let state := qsFirst q "state"
  let error := qsFirst q "error"
  if pyTruthy error then
    ((none, st.2), ⟨400, .errorPage (error.getD "") ((qsFirst q "error_description").getD "")⟩)
  else if pyTruthy code then
    ((code, state), ⟨200, .successPage⟩)
  else
    (st, ⟨400, .noCodePage⟩)

/-! ## Waiting for the callback (`wait_for_callback`)

The loop `while time.time() - start_time < timeout` with a 0.5-second
sleep per iteration reads the slot once per iteration, at elapsed time
0.5·i seconds for each i with 0.5·i < timeout — exactly `2·timeout`
polls.  `slotAt i` is the slot contents seen by the i-th poll; the
returned number counts the polls performed. -/

def waitTr (slotAt : Nat → Slot) : Nat → Nat → Option (String × Option String) × Nat
  | 0, polls => (none, polls)
  | fuel + 1, polls =>
    let s := slotAt polls
    if pyTruthy s.1 then (some (s.1.getD "", s.2), polls + 1)
    else waitTr slotAt fuel (polls + 1)

/-- The function `wait_for_callback(timeout)`: the result of polling the
slot trace until `received_code` is truthy, or `None` after the
timeout (`2·timeout` polls at 500 ms each). -/
def wait_for_callback (slotAt : Nat → Slot) (timeout : Nat) : Option (String × Option String) :=
  (waitTr slotAt (2 * timeout) 0).1

/-! ## Authorization Orchestrator (`test_authorization`) -/

/-- The query parameters of the authorization URL built at the top of
`test_authorization`. -/
structure AuthParams where
  client_id : String
  redirect_uri : String
  response_type : String
  state : String
  code_challenge : String
  code_challenge_method : String
  scope : Option String
deriving DecidableEq, Repr

/-- Observable outcome of `test_authorization`: its return value, how many
times the manual-entry prompt was issued, and the authorization-request
parameters it sent. -/
structure AuthOutcome where
  authCode : Option String
  manualPrompts : Nat
  sentParams : AuthParams
deriving DecidableEq, Repr

/-- The function `test_authorization`, with the environment made explicit:
`stateRandom` is `secrets.token_bytes(16)`, `serverOk` tells whether
`start_callback_server` succeeded, `slotAt` is the slot trace seen by the
wait loop (the handler state is reset before waiting), and `manualInput`
is the operator's answer to the manual prompt.  The `.error` case is the
uncaught `TypeError` the source raises at `received_state[:20]` when a
callback delivered a code without a state.  Note the success branch
returns the delivered code without comparing the delivered state to the
generated one. -/
def test_authorization (client_id code_challenge code_challenge_method scope : String)
    (stateRandom : List Nat) (serverOk : Bool) (slotAt : Nat → Slot)
    (manualInput : String) : Except String AuthOutcome :=
  let state := b64urlNoPad stateRandom
  let params : AuthParams :=
    { client_id := client_id
      redirect_uri := "http://localhost:8888/callback"
      response_type := "code"
      state := state
      code_challenge := code_challenge
      code_challenge_method := code_challenge_method
      scope := if scope != "" then some scope else none }
  let manual : Except String AuthOutcome :=
    let a := pyStrip manualInput
    if a == "" then .ok { authCode := none, manualPrompts := 1, sentParams := params }
    else .ok { authCode := some a, manualPrompts := 1, sentParams := params }
  if serverOk then
    match wait_for_callback slotAt 300 with
    | some (code, some _) => .ok { authCode := some code, manualPrompts := 0, sentParams := params }
    | some (_, none) => .error "TypeError: NoneType is not subscriptable"
    | none => manual
  else manual

/-! ## Client Registrar (`test_dcr` and the checks in `main`) -/

/-- The fields of the DCR response body that the harness reads.  `none`
models an absent field (a JSON `null` behaves the same under `.get`). -/
structure DcrBody where
  client_id : Option String
  client_secret : Option String
  redirect_uris : Option (List String)
deriving DecidableEq, Repr

/-- The function `test_dcr`: on HTTP 200 or 201 it returns the parsed
body; on any other status it reports the status and raw body and returns
`None` (modelled as the error value). -/
def test_dcr (status : Nat) (body : DcrBody) : Except (Nat × DcrBody) DcrBody :=
  if status = 200 || status = 201 then .ok body else .error (status, body)

/-- Outcome of the composed registration stage: `test_dcr` followed by
`main`'s truthiness check of `client_id` and `client_secret`
(lines 549–561).  `httpError` carries the status and raw body that
`test_dcr` prints; `missingCreds` is `main`'s fixed
"Missing client_id or client_secret" abort, which echoes neither. -/
inductive RegOutcome
  | accepted (body : DcrBody)
  | httpError (status : Nat) (body : DcrBody)
  | missingCreds
deriving DecidableEq, Repr

/-- The registration stage as `main` executes it. -/
def registration (status : Nat) (body : DcrBody) : RegOutcome :=
  match test_dcr status body with
  | .error (s, b) => .httpError s b
  | .ok b =>
    if pyTruthy b.client_id && pyTruthy b.client_secret then .accepted b
    else .missingCreds

/-- The `redirect_uri` that `main` (line 557) computes for the token
exchange: the first element of the registration response's
`redirect_uris` when that list is present and non-empty (Python
truthiness), else the literal callback URI. -/
def mainRedirectUri (body : DcrBody) : String :=
  match body.redirect_uris with
  | some (u :: _) => u
  | _ => "http://localhost:8888/callback"

/-! ## Token Exchanger (`test_token_exchange` and the checks in `main`) -/

/-- The form fields of the token-exchange POST. -/
structure TokenRequest where
  grant_type : String
  code : String
  redirect_uri : String
  client_id : String
  client_secret : String
  code_verifier : String
deriving DecidableEq, Repr

/-- The fields of the token response body that the harness reads. -/
structure TokenBody where
  access_token : Option String
  token_type : Option String
  expires_in : Option Nat
  refresh_token : Option String
deriving DecidableEq, Repr

/-- The function `test_token_exchange`: on HTTP 200 it returns the parsed
body; on any other status it reports the status and raw body and returns
`None` (modelled as the error value). -/
def test_token_exchange (status : Nat) (body : TokenBody) : Except (Nat × TokenBody) TokenBody :=
  if status = 200 then .ok body else .error (status, body)

/-- Outcome of the composed token stage: `test_token_exchange` followed by
`main`'s truthiness check of `access_token` (lines 588–591).  `httpError`
carries the status and raw body that `test_token_exchange` prints;
`missingToken` is `main`'s fixed "No access token in response" abort. -/
inductive TokOutcome
  | accepted (body : TokenBody)
  | httpError (status : Nat) (body : TokenBody)
  | missingToken
deriving DecidableEq, Repr

/-- The token-exchange stage as `main` executes it. -/
def tokenStage (status : Nat) (body : TokenBody) : TokOutcome :=
  match test_token_exchange status body with
  | .error (s, b) => .httpError s b
  | .ok b => if pyTruthy b.access_token then .accepted b else .missingToken

/-! ## The driver (`main`) -/

/-- The environment of one run of `main`: the mocked HTTP responses, the
random bytes drawn, the callback behaviour and the operator's input.  The
proxy probes of tests 4 and 5 print their outcome but never change the
exit code, so they are not represented (they are modelled as completing
normally). -/
structure MainEnv where
  dcrStatus : Nat
  dcrBody : DcrBody
  pkceRandom : List Nat
  stateRandom : List Nat
  serverOk : Bool
  slotAt : Nat → Slot
  manualInput : String
  scope : String
  tokenStatus : Nat
  tokenBody : TokenBody

/-- Observable outcome of `main`: the process exit code, how many manual
prompts were issued, the token-exchange request if one was made, and the
authorization parameters if the flow reached `test_authorization`. -/
structure MainOutcome where
  exitCode : Nat
  manualPrompts : Nat
  tokenRequest : Option TokenRequest
  authParams : Option AuthParams
deriving DecidableEq, Repr

/-- The function `main` (lines 523–620): DCR, credential check, PKCE
generation, authorization, token exchange, then the probes (which cannot
change the exit code).  `sys.exit(1)` on DCR failure, missing
credentials, token-exchange failure or missing access token;
`sys.exit(0)` when no authorization code was provided; an uncaught
exception also ends the process with exit code 1. -/
def mainRun (env : MainEnv) : MainOutcome :=
  match test_dcr env.dcrStatus env.dcrBody with
  | .error _ => { exitCode := 1, manualPrompts := 0, tokenRequest := none, authParams := none }
  | .ok body =>
    if pyTruthy body.client_id && pyTruthy body.client_secret then
      let redirect_uri := mainRedirectUri body
      let pkce := generate_pkce env.pkceRandom
      let scope := if env.scope != "" then pyStrip env.scope else ""
      match test_authorization (body.client_id.getD "") pkce.2.1 pkce.2.2 scope
          env.stateRandom env.serverOk env.slotAt env.manualInput with
      | .error _ => { exitCode := 1, manualPrompts := 0, tokenRequest := none, authParams := none }
      | .ok auth =>
        match auth.authCode with
        | none =>
          { exitCode := 0, manualPrompts := auth.manualPrompts,
            tokenRequest := none, authParams := some auth.sentParams }
        | some code =>
          let req : TokenRequest :=
            { grant_type := "authorization_code"
              code := code
              redirect_uri := redirect_uri
              client_id := body.client_id.getD ""
              client_secret := body.client_secret.getD ""
              code_verifier := pkce.1 }
          match tokenStage env.tokenStatus env.tokenBody with
          | .accepted _ =>
            { exitCode := 0, manualPrompts := auth.manualPrompts,
              tokenRequest := some req, authParams := some auth.sentParams }
          | _ =>
            { exitCode := 1, manualPrompts := auth.manualPrompts,
              tokenRequest := some req, authParams := some auth.sentParams }
    else { exitCode := 1, manualPrompts := 0, tokenRequest := none, authParams := none }

/-- Whether a token-stage outcome is the accepted one. -/
def tokAccepted : TokOutcome → Bool
  | .accepted _ => true
  | _ => false

/-- The tail of `main` after the registration stage has been accepted:
given the registration body, the PKCE verifier, the result of
`test_authorization` and the token-stage outcome, the observable outcome
of the rest of the run.  `mainRun` is proved equal to this once its DCR
checks pass. -/
def mainAfterReg (body : DcrBody) (verifier : String)
    (authRes : Except String AuthOutcome) (tok : TokOutcome) : MainOutcome :=
  match authRes with
  | .error _ => ⟨1, 0, none, none⟩
  | .ok auth =>
    match auth.authCode with
    | none => ⟨0, auth.manualPrompts, none, some auth.sentParams⟩
    | some code =>
      let req : TokenRequest :=
        ⟨"authorization_code", code, mainRedirectUri body, body.client_id.getD "",
          body.client_secret.getD "", verifier⟩
      match tok with
      | .accepted _ => ⟨0, auth.manualPrompts, some req, some auth.sentParams⟩
      | _ => ⟨1, auth.manualPrompts, some req, some auth.sentParams⟩

/-- The authorization parameters `test_authorization` builds from its
arguments. -/
def authParamsOf (client_id code_challenge code_challenge_method scope : String)
    (stateRandom : List Nat) : AuthParams :=
  { client_id := client_id
    redirect_uri := "http://localhost:8888/callback"
    response_type := "code"
    state := b64urlNoPad stateRandom
    code_challenge := code_challenge
    code_challenge_method := code_challenge_method
    scope := if scope != "" then some scope else none }

/-! ## Concrete environments used to instantiate the theorems -/

/-- A run whose callback delivers a code together with a state value that
cannot be the generated one. -/
def attackEnv : MainEnv :=
  ⟨200, ⟨some "c1", some "s1", some ["cursor://oauth-callback"]⟩,
    List.replicate 32 0, List.replicate 16 0, true,
    fun _ => (some "AUTHCODE", some "attacker-state"), "", "",
    200, ⟨some "tok123", some "Bearer", some 3600, none⟩⟩

/-- A run in which no callback ever arrives and the operator answers the
manual prompt with whitespace only. -/
def skipEnv : MainEnv :=
  ⟨200, ⟨some "c1", some "s1", none⟩, List.replicate 32 0, List.replicate 16 0,
    true, fun _ => (none, none), "   ", "", 400, ⟨none, none, none, none⟩⟩

/-- A fully successful run whose registration response echoes a
`redirect_uris` list whose first element differs from the literal callback
URI. -/
def fullEnv : MainEnv :=
  ⟨200, ⟨some "c1", some "s1", some ["cursor://oauth-callback"]⟩,
    List.replicate 32 0, List.replicate 16 0, true,
    fun _ => (some "AUTHCODE", some "A"), "", "",
    200, ⟨some "tok123", some "Bearer", some 3600, none⟩⟩

/-- The token-exchange request `main` sends in the `fullEnv` run. -/
def fullReq : TokenRequest :=
  ⟨"authorization_code", "AUTHCODE", "cursor://oauth-callback", "c1", "s1",
    b64urlNoPad (List.replicate 32 0)⟩

/-! ## Character classes -/

/-- The character class `[A-Za-z0-9_-]` of the verifier pattern in the
specification; also a convenient class of URL-plain characters that the
query-string parser passes through unchanged. -/
def plainChar (c : Char) : Bool := c.isAlphanum || c = '-' || c = '_'

/-- A non-empty string of `plainChar` characters. -/
def plainStr (s : String) : Prop := s ≠ "" ∧ ∀ c ∈ s.data, plainChar c = true

instance (s : String) : Decidable (plainStr s) := by
  unfold plainStr
  infer_instance

/-- Characters that may appear in the query strings considered below. -/
def querySafe (c : Char) : Bool := plainChar c || c = '=' || c = '&'

/-- A one-parameter query string `k=v`, as a character list. -/
def qone (k v : String) : List Char := k.data ++ '=' :: v.data

/-- A two-parameter query string `k1=v1&k2=v2`, as a character list. -/
def qpair (k1 v1 k2 v2 : String) : List Char :=
  k1.data ++ '=' :: (v1.data ++ '&' :: (k2.data ++ '=' :: v2.data))

/-! # Helper lemmas -/

theorem data_append (a b : String) : (a ++ b).data = a.data ++ b.data := rfl

theorem ne_empty_iff_data (s : String) : s ≠ "" ↔ s.data ≠ [] := by
  constructor
  · intro h hd
    exact h (String.ext hd)
  · intro h he
    subst he
    exact h rfl

theorem plainChar_ne {c d : Char} (hc : plainChar c = true) (hd : plainChar d = false) :
    c ≠ d := by
  intro he
  rw [he, hd] at hc
  exact Bool.noConfusion hc

theorem splitFirst_cons (sep c : Char) (cs : List Char) :
    splitFirst sep (c :: cs) =
      if c = sep then some ([], cs)
      else
        match splitFirst sep cs with
        | none => none
        | some (a, b) => some (c :: a, b) := rfl

theorem splitAll_cons (sep c : Char) (cs : List Char) :
    splitAll sep (c :: cs) =
      match splitAll sep cs with
      | [] => [[]]
      | h :: t => if c = sep then [] :: h :: t else (c :: h) :: t := rfl

theorem splitFirst_eq_none {sep : Char} {l : List Char} (h : ∀ c ∈ l, c ≠ sep) :
    splitFirst sep l = none := by
  induction l with
  | nil => rfl
  | cons c cs ih =>
    have hc : c ≠ sep := h c (List.mem_cons_self c cs)
    have h2 := ih fun d hd => h d (List.mem_cons_of_mem c hd)
    rw [splitFirst_cons, h2, if_neg hc]

theorem splitFirst_append {sep : Char} {a : List Char} (b : List Char)
    (h : ∀ c ∈ a, c ≠ sep) : splitFirst sep (a ++ sep :: b) = some (a, b) := by
  induction a with
  | nil =>
    rw [List.nil_append, splitFirst_cons, if_pos rfl]
  | cons c cs ih =>
    have hc : c ≠ sep := h c (List.mem_cons_self c cs)
    have h2 := ih fun d hd => h d (List.mem_cons_of_mem c hd)
    rw [List.cons_append, splitFirst_cons, h2, if_neg hc]

theorem splitAll_ne_nil (sep : Char) (l : List Char) : splitAll sep l ≠ [] := by
  induction l with
  | nil => simp [splitAll]
  | cons c cs ih =>
    rw [splitAll_cons]
    cases hsp : splitAll sep cs with
    | nil => simp
    | cons hh tt =>
      by_cases hc : c = sep <;> simp [hc]

theorem splitAll_no_sep {sep : Char} {l : List Char} (h : ∀ c ∈ l, c ≠ sep) :
    splitAll sep l = [l] := by
  induction l with
  | nil => rfl
  | cons c cs ih =>
    have hc : c ≠ sep := h c (List.mem_cons_self c cs)
    have h2 := ih fun d hd => h d (List.mem_cons_of_mem c hd)
    rw [splitAll_cons, h2]
    simp [hc]

theorem splitAll_append {sep : Char} {a : List Char} (b : List Char)
    (h : ∀ c ∈ a, c ≠ sep) : splitAll sep (a ++ sep :: b) = a :: splitAll sep b := by
  induction a with
  | nil =>
    obtain ⟨hh, tt, htt⟩ := List.exists_cons_of_ne_nil (splitAll_ne_nil sep b)
    rw [List.nil_append, splitAll_cons, htt]
    simp [htt]
  | cons c cs ih =>
    have hc : c ≠ sep := h c (List.mem_cons_self c cs)
    have h2 := ih fun d hd => h d (List.mem_cons_of_mem c hd)
    rw [List.cons_append, splitAll_cons, h2]
    simp [hc]

theorem pctDecode_plain : ∀ l : List Char, (∀ c ∈ l, c ≠ '%') → pctDecode l = l
  | [] => fun _ => rfl
  | c :: cs => fun h => by
    have hc : c ≠ '%' := h c (List.mem_cons_self c cs)
    have ih := pctDecode_plain cs fun d hd => h d (List.mem_cons_of_mem c hd)
    rw [pctDecode.eq_def]
    split
    · next heq => exact List.noConfusion heq
    · next heq => exact absurd (List.cons.inj heq).1 hc
    · next heq => exact absurd (List.cons.inj heq).1 hc
    · next heq =>
      obtain ⟨h1, h2⟩ := List.cons.inj heq
      subst h1
      subst h2
      rw [ih]

theorem map_plus_id {l : List Char} (h : ∀ c ∈ l, c ≠ '+') :
    (l.map fun c => if c = '+' then ' ' else c) = l := by
  induction l with
  | nil => rfl
  | cons c cs ih =>
    simp only [List.map_cons, if_neg (h c (List.mem_cons_self c cs)),
      ih fun d hd => h d (List.mem_cons_of_mem c hd)]

theorem unquote_plus_plain {l : List Char} (h : ∀ c ∈ l, plainChar c = true) :
    unquote_plus l = String.mk l := by
  unfold unquote_plus
  rw [map_plus_id fun c hc => plainChar_ne (h c hc) (by decide),
    pctDecode_plain _ fun c hc => plainChar_ne (h c hc) (by decide)]

theorem querySafe_ne {c d : Char} (hc : querySafe c = true) (hd : querySafe d = false) :
    c ≠ d := by
  intro he
  rw [he, hd] at hc
  exact Bool.noConfusion hc

theorem querySafe_of_plain {c : Char} (h : plainChar c = true) : querySafe c = true := by
  simp [querySafe, h]

theorem qone_safe {k v : String} (hk : ∀ c ∈ k.data, plainChar c = true)
    (hv : ∀ c ∈ v.data, plainChar c = true) : ∀ c ∈ qone k v, querySafe c = true := by
  intro c hc
  rcases List.mem_append.mp hc with h | h
  · exact querySafe_of_plain (hk c h)
  · rcases List.mem_cons.mp h with rfl | h
    · decide
    · exact querySafe_of_plain (hv c h)

theorem qpair_safe {k1 v1 k2 v2 : String} (hk1 : ∀ c ∈ k1.data, plainChar c = true)
    (hv1 : ∀ c ∈ v1.data, plainChar c = true) (hk2 : ∀ c ∈ k2.data, plainChar c = true)
    (hv2 : ∀ c ∈ v2.data, plainChar c = true) : ∀ c ∈ qpair k1 v1 k2 v2, querySafe c = true := by
  intro c hc
  rcases List.mem_append.mp hc with h | h
  · exact querySafe_of_plain (hk1 c h)
  · rcases List.mem_cons.mp h with rfl | h
    · decide
    · rcases List.mem_append.mp h with h | h
      · exact querySafe_of_plain (hv1 c h)
      · rcases List.mem_cons.mp h with rfl | h
        · decide
        · exact qone_safe hk2 hv2 c h

theorem parse_qsl_single {k v : String} (hk : ∀ c ∈ k.data, plainChar c = true)
    (hv : plainStr v) : parse_qsl (qone k v) = [(k, v)] := by
  have hamp : ∀ c ∈ qone k v, c ≠ '&' := by
    intro c hc
    rcases List.mem_append.mp hc with h | h
    · exact plainChar_ne (hk c h) (by decide)
    · rcases List.mem_cons.mp h with rfl | h
      · decide
      · exact plainChar_ne (hv.2 c h) (by decide)
  have hkeq : ∀ c ∈ k.data, c ≠ '=' := fun c hc => plainChar_ne (hk c hc) (by decide)
  have hvne : v.data ≠ [] := (ne_empty_iff_data v).mp hv.1
  unfold parse_qsl qone
  rw [splitAll_no_sep (by rw [← qone]; exact hamp)]
  simp only [List.foldr_cons, List.foldr_nil, splitFirst_append v.data hkeq, if_neg hvne,
    unquote_plus_plain hk, unquote_plus_plain hv.2]

theorem parse_qsl_pair {k1 v1 k2 v2 : String} (hk1 : ∀ c ∈ k1.data, plainChar c = true)
    (hv1 : plainStr v1) (hk2 : ∀ c ∈ k2.data, plainChar c = true) (hv2 : plainStr v2) :
    parse_qsl (qpair k1 v1 k2 v2) = [(k1, v1), (k2, v2)] := by
  have hassoc : qpair k1 v1 k2 v2 = qone k1 v1 ++ '&' :: qone k2 v2 := by
    simp [qpair, qone, List.append_assoc]
  have hamp1 : ∀ c ∈ qone k1 v1, c ≠ '&' := by
    intro c hc
    rcases List.mem_append.mp hc with h | h
    · exact plainChar_ne (hk1 c h) (by decide)
    · rcases List.mem_cons.mp h with rfl | h
      · decide
      · exact plainChar_ne (hv1.2 c h) (by decide)
  have hk1eq : ∀ c ∈ k1.data, c ≠ '=' := fun c hc => plainChar_ne (hk1 c hc) (by decide)
  have hv1ne : v1.data ≠ [] := (ne_empty_iff_data v1).mp hv1.1
  have hsingle := parse_qsl_single hk2 hv2
  rw [hassoc]
  unfold parse_qsl at hsingle ⊢
  rw [splitAll_append _ hamp1]
  simp only [List.foldr_cons] at hsingle ⊢
  rw [hsingle]
  unfold qone
  simp only [splitFirst_append v1.data hk1eq, if_neg hv1ne,
    unquote_plus_plain hk1, unquote_plus_plain hv1.2]

theorem urlQuery_concat {p q : List Char} (hp : ∀ c ∈ p, c ≠ '?' ∧ c ≠ '#')
    (hq : ∀ c ∈ q, c ≠ '#') : urlQuery (p ++ '?' :: q) = q := by
  have h1 : splitFirst '#' (p ++ '?' :: q) = none := by
    apply splitFirst_eq_none
    intro c hc
    rcases List.mem_append.mp hc with h | h
    · exact (hp c h).2
    · rcases List.mem_cons.mp h with rfl | h
      · decide
      · exact hq c h
  unfold urlQuery
  simp only [h1, splitFirst_append q fun c hc => (hp c hc).1]

theorem urlQuery_no_sep {p : List Char} (hp : ∀ c ∈ p, c ≠ '?' ∧ c ≠ '#') :
    urlQuery p = [] := by
  unfold urlQuery
  simp only [splitFirst_eq_none fun c hc => (hp c hc).2,
    splitFirst_eq_none fun c hc => (hp c hc).1]

theorem do_GET_eq_of_query {p1 p2 : String} (h : urlQuery p1.data = urlQuery p2.data)
    (st : Slot) : do_GET p1 st = do_GET p2 st := by
  unfold do_GET
  rw [h]

theorem do_GET_codeState {p X Y : String} (hp : ∀ c ∈ p.data, c ≠ '?' ∧ c ≠ '#')
    (hX : plainStr X) (hY : plainStr Y) (st : Slot) :
    do_GET (p ++ "?code=" ++ X ++ "&state=" ++ Y) st
      = ((some X, some Y), ⟨200, .successPage⟩) := by
  have hdata : (p ++ "?code=" ++ X ++ "&state=" ++ Y).data
      = p.data ++ '?' :: qpair "code" X "state" Y := by
    simp only [data_append, qpair, List.append_assoc]
    rfl
  have hsafe := @qpair_safe "code" X "state" Y (by decide) hX.2 (by decide) hY.2
  have hq : urlQuery (p.data ++ '?' :: qpair "code" X "state" Y) = qpair "code" X "state" Y :=
    urlQuery_concat hp fun c hc => querySafe_ne (hsafe c hc) (by decide)
  have hparse : parse_qsl (qpair "code" X "state" Y) = [("code", X), ("state", Y)] :=
    parse_qsl_pair (by decide) hX (by decide) hY
  have hcode : qsFirst (qpair "code" X "state" Y) "code" = some X := by
    unfold qsFirst
    rw [hparse]
    simp [List.find?]
  have hstate : qsFirst (qpair "code" X "state" Y) "state" = some Y := by
    unfold qsFirst
    rw [hparse]
    simp [List.find?]
  have herr : qsFirst (qpair "code" X "state" Y) "error" = none := by
    unfold qsFirst
    rw [hparse]
    simp [List.find?]
  unfold do_GET
  rw [hdata, hq]
  simp only [hcode, hstate, herr]
  simp [pyTruthy, bne_iff_ne, hX.1]

theorem do_GET_errorDesc {p E D : String} (hp : ∀ c ∈ p.data, c ≠ '?' ∧ c ≠ '#')
    (hE : plainStr E) (hD : plainStr D) (st : Slot) :
    do_GET (p ++ "?error=" ++ E ++ "&error_description=" ++ D) st
      = ((none, st.2), ⟨400, .errorPage E D⟩) := by
  have hdata : (p ++ "?error=" ++ E ++ "&error_description=" ++ D).data
      = p.data ++ '?' :: qpair "error" E "error_description" D := by
    simp only [data_append, qpair, List.append_assoc]
    rfl
  have hsafe := @qpair_safe "error" E "error_description" D (by decide) hE.2
    (by decide) hD.2
  have hq : urlQuery (p.data ++ '?' :: qpair "error" E "error_description" D)
      = qpair "error" E "error_description" D :=
    urlQuery_concat hp fun c hc => querySafe_ne (hsafe c hc) (by decide)
  have hparse : parse_qsl (qpair "error" E "error_description" D)
      = [("error", E), ("error_description", D)] :=
    parse_qsl_pair (by decide) hE (by decide) hD
  have herr : qsFirst (qpair "error" E "error_description" D) "error" = some E := by
    unfold qsFirst
    rw [hparse]
    simp [List.find?]
  have hdesc : qsFirst (qpair "error" E "error_description" D) "error_description" = some D := by
    unfold qsFirst
    rw [hparse]
    simp [List.find?]
  unfold do_GET
  rw [hdata, hq]
  simp only [herr, hdesc]
  simp [pyTruthy, bne_iff_ne, hE.1]

theorem do_GET_errorOnly {p E : String} (hp : ∀ c ∈ p.data, c ≠ '?' ∧ c ≠ '#')
    (hE : plainStr E) (st : Slot) :
    do_GET (p ++ "?error=" ++ E) st = ((none, st.2), ⟨400, .errorPage E ""⟩) := by
  have hdata : (p ++ "?error=" ++ E).data = p.data ++ '?' :: qone "error" E := by
    simp only [data_append, qone, List.append_assoc]
    rfl
  have hsafe := @qone_safe "error" E (by decide) hE.2
  have hq : urlQuery (p.data ++ '?' :: qone "error" E) = qone "error" E :=
    urlQuery_concat hp fun c hc => querySafe_ne (hsafe c hc) (by decide)
  have hparse : parse_qsl (qone "error" E) = [("error", E)] :=
    parse_qsl_single (by decide) hE
  have herr : qsFirst (qone "error" E) "error" = some E := by
    unfold qsFirst
    rw [hparse]
    simp [List.find?]
  have hdesc : qsFirst (qone "error" E) "error_description" = none := by
    unfold qsFirst
    rw [hparse]
    simp [List.find?]
  unfold do_GET
  rw [hdata, hq]
  simp only [herr, hdesc]
  simp [pyTruthy, bne_iff_ne, hE.1]

theorem do_GET_noQuery {p : String} (hp : ∀ c ∈ p.data, c ≠ '?' ∧ c ≠ '#') (st : Slot) :
    do_GET p st = (st, ⟨400, .noCodePage⟩) := by
  unfold do_GET
  rw [urlQuery_no_sep hp]
  simp [qsFirst, parse_qsl, splitAll, splitFirst, pyTruthy]

theorem b64Char_plain (n : Nat) : plainChar (b64Char n) = true := by
  by_cases h : n < 64
  · unfold b64Char
    interval_cases n <;> decide
  · unfold b64Char
    rw [List.getD_eq_default]
    · decide
    · exact le_of_not_lt fun hlt => h (lt_of_lt_of_le hlt (by decide))

theorem b64Char_ne_pad (n : Nat) : b64Char n ≠ '=' :=
  plainChar_ne (b64Char_plain n) (by decide)

theorem dropWhile_append_ne_nil {p : Char → Bool} {x : List Char} (y : List Char)
    (h : x.dropWhile p ≠ []) : (x ++ y).dropWhile p = x.dropWhile p ++ y := by
  induction x with
  | nil => exact absurd rfl h
  | cons c cs ih =>
    rw [List.cons_append, List.dropWhile_cons, List.dropWhile_cons] at *
    by_cases hc : p c = true
    · simp only [hc, if_true] at h ⊢
      exact ih h
    · simp only [hc, if_false, List.cons_append] at h ⊢
      simp [eq_false_of_ne_true hc]

theorem rstripEq_append {a b : List Char} (h : rstripEq b ≠ []) :
    rstripEq (a ++ b) = a ++ rstripEq b := by
  have hb : b.reverse.dropWhile (· = '=') ≠ [] := by
    intro he
    exact h (by unfold rstripEq; rw [he]; rfl)
  unfold rstripEq
  rw [List.reverse_append, dropWhile_append_ne_nil _ hb, List.reverse_append,
    List.reverse_reverse]

theorem rstripEq_mem {c : Char} {l : List Char} (h : c ∈ rstripEq l) : c ∈ l := by
  unfold rstripEq at h
  have h1 := List.mem_reverse.mp h
  have hsub : (l.reverse.dropWhile (· = '=')).Sublist l.reverse :=
    List.dropWhile_sublist _
  exact List.mem_reverse.mp (hsub.mem h1)

theorem b64_strip_spec : ∀ bs : List Nat, bs.length % 3 = 2 →
    (rstripEq (b64Encode bs)).length = 4 * (bs.length / 3) + 3
      ∧ ∀ c ∈ rstripEq (b64Encode bs), plainChar c = true
  | [] => by intro h; simp at h
  | [b1] => by intro h; simp at h
  | [b1, b2] => fun _ => by
    have hc3 : b64Char (b2 % 16 * 4) ≠ '=' := b64Char_ne_pad _
    have hstrip : rstripEq (b64Encode [b1, b2])
        = [b64Char (b1 / 4), b64Char (b1 % 4 * 16 + b2 / 16), b64Char (b2 % 16 * 4)] := by
      simp [b64Encode, rstripEq, List.dropWhile, hc3]
    rw [hstrip]
    refine ⟨by simp, ?_⟩
    intro c hc
    rcases List.mem_cons.mp hc with rfl | hc
    · exact b64Char_plain _
    rcases List.mem_cons.mp hc with rfl | hc
    · exact b64Char_plain _
    rcases List.mem_cons.mp hc with rfl | hc
    · exact b64Char_plain _
    · exact absurd hc (List.not_mem_nil c)
  | b1 :: b2 :: b3 :: rest => fun h => by
    have hr : rest.length % 3 = 2 := by
      have : (b1 :: b2 :: b3 :: rest).length = rest.length + 3 := by simp
      rw [this] at h
      omega
    have ih := b64_strip_spec rest hr
    have hne : rstripEq (b64Encode rest) ≠ [] := by
      intro he
      rw [he] at ih
      have := ih.1
      simp at this
    have hEnc : b64Encode (b1 :: b2 :: b3 :: rest)
        = [b64Char (b1 / 4), b64Char (b1 % 4 * 16 + b2 / 16),
           b64Char (b2 % 16 * 4 + b3 / 64), b64Char (b3 % 64)] ++ b64Encode rest := by
      simp [b64Encode]
    rw [hEnc, rstripEq_append hne]
    constructor
    · have h4 := ih.1
      simp only [List.length_append, List.length_cons, List.length_nil, h4]
      omega
    · intro c hc
      rcases List.mem_append.mp hc with hc | hc
      · rcases List.mem_cons.mp hc with rfl | hc
        · exact b64Char_plain _
        rcases List.mem_cons.mp hc with rfl | hc
        · exact b64Char_plain _
        rcases List.mem_cons.mp hc with rfl | hc
        · exact b64Char_plain _
        rcases List.mem_cons.mp hc with rfl | hc
        · exact b64Char_plain _
        · exact absurd hc (List.not_mem_nil c)
      · exact ih.2 c hc

theorem verifier_spec {bs : List Nat} (h : bs.length = 32) :
    (b64urlNoPad bs).length = 43 ∧ ∀ c ∈ (b64urlNoPad bs).data, plainChar c = true := by
  have h2 := b64_strip_spec bs (by rw [h])
  rw [h] at h2
  exact ⟨h2.1, h2.2⟩

theorem waitTr_none {slotAt : Nat → Slot} (h : ∀ i, pyTruthy (slotAt i).1 = false) :
    ∀ (fuel polls : Nat), waitTr slotAt fuel polls = (none, polls + fuel) := by
  intro fuel
  induction fuel with
  | zero => intro polls; rfl
  | succ f ih =>
    intro polls
    simp only [waitTr, h polls, Bool.false_eq_true, if_false, ih (polls + 1)]
    rw [Nat.add_assoc, Nat.add_comm 1 f]

theorem registration_eq (status : Nat) (body : DcrBody) :
    registration status body =
      if status = 200 ∨ status = 201 then
        (if pyTruthy body.client_id && pyTruthy body.client_secret then .accepted body
         else .missingCreds)
      else .httpError status body := by
  unfold registration test_dcr
  by_cases hs : status = 200 ∨ status = 201
  · have hb : (status = 200 || status = 201) = true := by
      rcases hs with h | h <;> simp [h]
    simp [hb, hs]
  · have h1 : ¬status = 200 := fun h => hs (Or.inl h)
    have h2 : ¬status = 201 := fun h => hs (Or.inr h)
    simp [h1, h2, hs]

theorem tokenStage_eq (status : Nat) (body : TokenBody) :
    tokenStage status body =
      if status = 200 then
        (if pyTruthy body.access_token then .accepted body else .missingToken)
      else .httpError status body := by
  unfold tokenStage test_token_exchange
  by_cases hs : status = 200 <;> simp [hs]

theorem test_authorization_code (cid ch m sc : String) (srand : List Nat)
    (slotAt : Nat → Slot) (minput code rstate : String)
    (hw : wait_for_callback slotAt 300 = some (code, some rstate)) :
    test_authorization cid ch m sc srand true slotAt minput
      = .ok ⟨some code, 0, authParamsOf cid ch m sc srand⟩ := by
  unfold test_authorization authParamsOf
  simp [hw]

theorem test_authorization_manual (cid ch m sc : String) (srand : List Nat)
    (serverOk : Bool) (slotAt : Nat → Slot) (minput : String)
    (hfall : serverOk = false ∨ wait_for_callback slotAt 300 = none) :
    test_authorization cid ch m sc srand serverOk slotAt minput
      = .ok ⟨if pyStrip minput == "" then none else some (pyStrip minput), 1,
          authParamsOf cid ch m sc srand⟩ := by
  unfold test_authorization authParamsOf
  cases serverOk with
  | false =>
    by_cases hm : (pyStrip minput == "") = true
    · simp [hm]
    · simp [hm, Bool.not_eq_true _ ▸ hm]
  | true =>
    have hw : wait_for_callback slotAt 300 = none := by
      rcases hfall with h | h
      · exact Bool.noConfusion h
      · exact h
    by_cases hm : (pyStrip minput == "") = true
    · simp [hw, hm]
    · simp [hw, hm]

theorem test_authorization_params_literal (cid ch m sc : String) (srand : List Nat)
    (serverOk : Bool) (slotAt : Nat → Slot) (minput : String) (out : AuthOutcome)
    (h : test_authorization cid ch m sc srand serverOk slotAt minput = .ok out) :
    out.sentParams.redirect_uri = "http://localhost:8888/callback" := by
  unfold test_authorization at h
  cases serverOk with
  | false =>
    by_cases hm : (pyStrip minput == "") = true <;> simp [hm] at h <;> rw [← h]
  | true =>
    match hw : wait_for_callback slotAt 300 with
    | some (code, some rs) =>
      simp [hw] at h
      rw [← h]
    | some (code, none) =>
      simp [hw] at h
    | none =>
      by_cases hm : (pyStrip minput == "") = true <;> simp [hw, hm] at h <;> rw [← h]

theorem mainRun_reg_fail (env : MainEnv)
    (h : ¬((env.dcrStatus = 200 ∨ env.dcrStatus = 201)
        ∧ pyTruthy env.dcrBody.client_id = true
        ∧ pyTruthy env.dcrBody.client_secret = true)) :
    mainRun env = ⟨1, 0, none, none⟩ := by
  unfold mainRun test_dcr
  by_cases hs : env.dcrStatus = 200 ∨ env.dcrStatus = 201
  · have hb : (env.dcrStatus = 200 || env.dcrStatus = 201) = true := by
      rcases hs with h2 | h2 <;> simp [h2]
    have hcred : ¬(pyTruthy env.dcrBody.client_id && pyTruthy env.dcrBody.client_secret) = true := by
      intro hc
      exact h ⟨hs, (Bool.and_eq_true _ _).mp hc⟩
    simp [hb, hcred]
  · have h1 : ¬env.dcrStatus = 200 := fun h2 => hs (Or.inl h2)
    have h2 : ¬env.dcrStatus = 201 := fun h3 => hs (Or.inr h3)
    simp [h1, h2]

theorem mainRun_reg_pass (env : MainEnv)
    (hs : env.dcrStatus = 200 ∨ env.dcrStatus = 201)
    (hc1 : pyTruthy env.dcrBody.client_id = true)
    (hc2 : pyTruthy env.dcrBody.client_secret = true) :
    mainRun env =
      mainAfterReg env.dcrBody (generate_pkce env.pkceRandom).1
        (test_authorization (env.dcrBody.client_id.getD "")
          (generate_pkce env.pkceRandom).2.1 (generate_pkce env.pkceRandom).2.2
          (if env.scope != "" then pyStrip env.scope else "")
          env.stateRandom env.serverOk env.slotAt env.manualInput)
        (tokenStage env.tokenStatus env.tokenBody) := by
  unfold mainRun test_dcr mainAfterReg
  have hb : (env.dcrStatus = 200 || env.dcrStatus = 201) = true := by
    rcases hs with h | h <;> simp [h]
  simp only [hb, if_true, hc1, hc2, Bool.and_self]

theorem mainAfterReg_none (body : DcrBody) (verifier : String) (auth : AuthOutcome)
    (tok : TokOutcome) (h : auth.authCode = none) :
    mainAfterReg body verifier (.ok auth) tok
      = ⟨0, auth.manualPrompts, none, some auth.sentParams⟩ := by
  simp only [mainAfterReg, h]

theorem mainAfterReg_some (body : DcrBody) (verifier : String) (auth : AuthOutcome)
    (tok : TokOutcome) (code : String) (h : auth.authCode = some code) :
    mainAfterReg body verifier (.ok auth) tok
      = ⟨if tokAccepted tok then 0 else 1, auth.manualPrompts,
          some ⟨"authorization_code", code, mainRedirectUri body,
            body.client_id.getD "", body.client_secret.getD "", verifier⟩,
          some auth.sentParams⟩ := by
  simp only [mainAfterReg, h]
  cases tok <;> rfl

theorem mainAfterReg_authParams (body : DcrBody) (verifier : String)
    (auth : AuthOutcome) (tok : TokOutcome) :
    (mainAfterReg body verifier (.ok auth) tok).authParams = some auth.sentParams := by
  cases hcode : auth.authCode with
  | none => rw [mainAfterReg_none _ _ _ _ hcode]
  | some code => rw [mainAfterReg_some _ _ _ _ _ hcode]

theorem tokAccepted_false {s : Nat} {b : TokenBody}
    (h : ¬(s = 200 ∧ pyTruthy b.access_token = true)) :
    tokAccepted (tokenStage s b) = false := by
  have hr := tokenStage_eq s b
  by_cases h200 : s = 200
  · by_cases hat : pyTruthy b.access_token = true
    · exact absurd ⟨h200, hat⟩ h
    · rw [if_pos h200, if_neg hat] at hr
      rw [hr]
      rfl
  · rw [if_neg h200] at hr
    rw [hr]
    rfl

/-! # Claim theorems -/

/-- C3: for every PKCE pair that `generate_pkce` derives from the 32
cryptographically random bytes drawn by `secrets.token_bytes(32)`, the
challenge equals the URL-safe base64 encoding, with trailing `=` padding
stripped, of the SHA-256 of the ASCII bytes of the verifier; the method is
the constant "S256"; the verifier is a 43-character string over
`[A-Za-z0-9_-]` (hence matches `^[A-Za-z0-9_-]{43,}$`) containing
no padding character; and the challenge is a deterministic function of
the verifier. -/
theorem c3_generate_pkce_contract (bs : List Nat) (hlen : bs.length = 32) :
    (generate_pkce bs).2.1 = b64urlNoPad (sha256 (asciiBytes (generate_pkce bs).1))
    ∧ (generate_pkce bs).2.2 = "S256"
    ∧ (generate_pkce bs).1.length = 43
    ∧ (∀ c ∈ (generate_pkce bs).1.data, plainChar c = true)
    ∧ '=' ∉ (generate_pkce bs).1.data
    ∧ ∀ bs2 : List Nat, (generate_pkce bs2).1 = (generate_pkce bs).1 →
        (generate_pkce bs2).2.1 = (generate_pkce bs).2.1 := by
  have hv := verifier_spec hlen
  refine ⟨rfl, rfl, hv.1, hv.2, fun hmem => absurd (hv.2 '=' hmem) (by decide), ?_⟩
  intro bs2 he
  show b64urlNoPad (sha256 (asciiBytes (generate_pkce bs2).1))
    = b64urlNoPad (sha256 (asciiBytes (generate_pkce bs).1))
  rw [he]

/-- C3 witness: the PKCE contract instantiated at the concrete random
bytes 0, 1, ..., 31. -/
theorem c3_generate_pkce_contract_witness :
    (List.range 32).length = 32 ∧ (generate_pkce (List.range 32)).1.length = 43
      ∧ (generate_pkce (List.range 32)).2.2 = "S256" :=
  ⟨by decide, (c3_generate_pkce_contract (List.range 32) (by decide)).2.2.1,
    (c3_generate_pkce_contract (List.range 32) (by decide)).2.1⟩

/-- C7: when the listener never produces a result, `wait_for_callback`
polls the shared slot once per 500 ms sleep, gives up after exactly
600 = 300·1000/500 polls — the fixed 300-second timeout — returning
`None` rather than hanging, and the orchestrator then enters manual-entry
mode exactly once (a single prompt). -/
theorem c7_wait_timeout_manual_once (slotAt : Nat → Slot)
    (h : ∀ i, pyTruthy (slotAt i).1 = false) :
    wait_for_callback slotAt 300 = none
    ∧ waitTr slotAt (2 * 300) 0 = (none, 600)
    ∧ 600 = 300 * 1000 / 500
    ∧ ∀ cid ch m sc minput : String, ∀ srand : List Nat,
        ∃ out : AuthOutcome,
          test_authorization cid ch m sc srand true slotAt minput = .ok out
            ∧ out.manualPrompts = 1 := by
  have hw := waitTr_none h (2 * 300) 0
  refine ⟨?_, ?_, rfl, ?_⟩
  · unfold wait_for_callback
    rw [hw]
  · rw [hw]
  · intro cid ch m sc minput srand
    have hnone : wait_for_callback slotAt 300 = none := by
      unfold wait_for_callback
      rw [hw]
    rw [test_authorization_manual cid ch m sc srand true slotAt minput (Or.inr hnone)]
    exact ⟨_, rfl, rfl⟩

/-- C7 witness: the slot trace that never holds a code. -/
theorem c7_wait_timeout_manual_once_witness :
    wait_for_callback (fun _ => ((none, none) : Slot)) 300 = none
    ∧ ∃ out : AuthOutcome,
        test_authorization "c1" "ch" "S256" "" [] true
            (fun _ => ((none, none) : Slot)) "" = .ok out
          ∧ out.manualPrompts = 1 :=
  ⟨(c7_wait_timeout_manual_once (fun _ => ((none, none) : Slot)) fun _ => rfl).1,
    (c7_wait_timeout_manual_once (fun _ => ((none, none) : Slot))
      fun _ => rfl).2.2.2 "c1" "ch" "S256" "" "" []⟩

/-- C2 counterexample: a single well-formed `?code=X&state=Y` request
stores `Success{X,Y}`, but a second code-carrying request afterwards
changes the stored result — the slot is not first-callback-wins as the
claim states. -/
theorem c2_counterexample_overwrite :
    (do_GET "/callback?code=X&state=Y" (none, none)).1 = (some "X", some "Y")
    ∧ (do_GET "/callback?code=Z&state=W"
          (do_GET "/callback?code=X&state=Y" (none, none)).1).1
        ≠ (do_GET "/callback?code=X&state=Y" (none, none)).1 := by
  refine ⟨by decide, by decide⟩

/-- C2 (amended): a well-formed `?code=X&state=Y` request stores exactly
`Success{X,Y}`; afterwards a code-carrying request overwrites the
stored result with its own code and state, an error-carrying request
clears the stored code (leaving the stored state), and a request with
neither code nor error leaves the stored result unchanged. -/
theorem c2_amended_slot_updates (X Y Z W E : String) (st0 : Slot)
    (hX : plainStr X) (hY : plainStr Y) (hZ : plainStr Z) (hW : plainStr W)
    (hE : plainStr E) :
    (do_GET ("/callback" ++ "?code=" ++ X ++ "&state=" ++ Y) st0).1 = (some X, some Y)
    ∧ (do_GET ("/callback" ++ "?code=" ++ Z ++ "&state=" ++ W) (some X, some Y)).1
        = (some Z, some W)
    ∧ (do_GET ("/callback" ++ "?error=" ++ E) (some X, some Y)).1 = (none, some Y)
    ∧ (do_GET "/callback" (some X, some Y)).1 = (some X, some Y) := by
  have hp : ∀ c ∈ ("/callback" : String).data, c ≠ '?' ∧ c ≠ '#' := by decide
  refine ⟨?_, ?_, ?_, ?_⟩
  · rw [do_GET_codeState hp hX hY]
  · rw [do_GET_codeState hp hZ hW]
  · rw [do_GET_errorOnly hp hE]
  · rw [do_GET_noQuery hp]

/-- C2 witness: the amended slot behaviour at concrete codes and states. -/
theorem c2_amended_slot_updates_witness :
    plainStr "X"
    ∧ (do_GET ("/callback" ++ "?code=" ++ "X" ++ "&state=" ++ "Y") (none, none)).1
        = (some "X", some "Y")
    ∧ (do_GET ("/callback" ++ "?code=" ++ "Z" ++ "&state=" ++ "W")
          (some "X", some "Y")).1 = (some "Z", some "W")
    ∧ (do_GET ("/callback" ++ "?error=" ++ "access_denied") (some "X", some "Y")).1
        = (none, some "Y")
    ∧ (do_GET "/callback" (some "X", some "Y")).1 = (some "X", some "Y") :=
  ⟨by decide,
    (c2_amended_slot_updates "X" "Y" "Z" "W" "access_denied" (none, none)
      (by decide) (by decide) (by decide) (by decide) (by decide)).1,
    (c2_amended_slot_updates "X" "Y" "Z" "W" "access_denied" (none, none)
      (by decide) (by decide) (by decide) (by decide) (by decide)).2.1,
    (c2_amended_slot_updates "X" "Y" "Z" "W" "access_denied" (none, none)
      (by decide) (by decide) (by decide) (by decide) (by decide)).2.2.1,
    (c2_amended_slot_updates "X" "Y" "Z" "W" "access_denied" (none, none)
      (by decide) (by decide) (by decide) (by decide) (by decide)).2.2.2⟩

/-- C9: the stored result and the HTTP response of `do_GET` depend only on
the query component of the request path — two paths with equal query parts
are handled identically — and a code-carrying GET to any path, not just
`/callback`, sets the result slot. -/
theorem c9_query_only :
    (∀ p1 p2 : String, ∀ st : Slot, urlQuery p1.data = urlQuery p2.data →
        do_GET p1 st = do_GET p2 st)
    ∧ ∀ p X Y : String, ∀ st : Slot,
        (∀ c ∈ p.data, c ≠ '?' ∧ c ≠ '#') → plainStr X → plainStr Y →
        (do_GET (p ++ "?code=" ++ X ++ "&state=" ++ Y) st).1 = (some X, some Y) := by
  refine ⟨fun p1 p2 st h => do_GET_eq_of_query h st, fun p X Y st hp hX hY => ?_⟩
  rw [do_GET_codeState hp hX hY]

/-- C9 witness: a code-carrying GET to a path other than `/callback` is
handled exactly like one to `/callback` and sets the slot. -/
theorem c9_query_only_witness :
    do_GET "/callback?code=abc&state=xyz" (none, none)
      = do_GET "/anywhere/else?code=abc&state=xyz" (none, none)
    ∧ (do_GET ("/anywhere/else" ++ "?code=" ++ "abc" ++ "&state=" ++ "xyz")
          (some "old", none)).1 = (some "abc", some "xyz") :=
  ⟨c9_query_only.1 _ _ _ (by decide),
    c9_query_only.2 "/anywhere/else" "abc" "xyz" (some "old", none)
      (by decide) (by decide) (by decide)⟩

/-- C4 counterexample: the handler stores no failure value at all — the
post-state after `?error=access_denied` equals the post-state after a
different error, the stored code is cleared rather than set, and an
orchestrator polling such a slot receives `None` (the timeout path) rather
than the provider's error. -/
theorem c4_counterexample_no_failure_stored :
    (do_GET "/callback?error=access_denied" (none, none)).1
      = (do_GET "/callback?error=server_error" (none, none)).1
    ∧ (do_GET "/callback?error=access_denied" (some "X", some "Y")).1.1 = none
    ∧ wait_for_callback
        (fun _ => (do_GET "/callback?error=access_denied" (none, none)).1) 300 = none := by
  refine ⟨by decide, by decide, ?_⟩
  have h1 : pyTruthy (do_GET "/callback?error=access_denied" (none, none)).1.1 = false := by
    decide
  unfold wait_for_callback
  rw [@waitTr_none (fun _ => (do_GET "/callback?error=access_denied" (none, none)).1)
    (fun _ => h1) (2 * 300) 0]

/-- C4 (amended): a callback request with an `error` parameter answers 400
with the error and description rendered in the page, clears the stored
code, leaves the stored state, and stores no failure value; the waiting
orchestrator therefore observes no result and falls back through the
timeout path instead of surfacing the provider's error. -/
theorem c4_amended_error_clears_code (E D : String) (st : Slot)
    (hE : plainStr E) (hD : plainStr D) :
    do_GET ("/callback" ++ "?error=" ++ E ++ "&error_description=" ++ D) st
      = ((none, st.2), ⟨400, .errorPage E D⟩)
    ∧ do_GET ("/callback" ++ "?error=" ++ E) st = ((none, st.2), ⟨400, .errorPage E ""⟩)
    ∧ wait_for_callback (fun _ => ((none, st.2) : Slot)) 300 = none := by
  have hp : ∀ c ∈ ("/callback" : String).data, c ≠ '?' ∧ c ≠ '#' := by decide
  refine ⟨do_GET_errorDesc hp hE hD st, do_GET_errorOnly hp hE st, ?_⟩
  unfold wait_for_callback
  rw [@waitTr_none (fun _ => ((none, st.2) : Slot)) (fun _ => rfl) (2 * 300) 0]

/-- C4 witness: the amended error-callback behaviour at
`?error=access_denied&error_description=denied`. -/
theorem c4_amended_error_clears_code_witness :
    plainStr "access_denied"
    ∧ do_GET ("/callback" ++ "?error=" ++ "access_denied" ++ "&error_description=" ++ "denied")
          (some "C", some "S")
        = ((none, some "S"), ⟨400, .errorPage "access_denied" "denied"⟩)
    ∧ wait_for_callback (fun _ => ((none, some "S") : Slot)) 300 = none :=
  ⟨by decide,
    (c4_amended_error_clears_code "access_denied" "denied" (some "C", some "S")
      (by decide) (by decide)).1,
    (c4_amended_error_clears_code "access_denied" "denied" (some "C", some "S")
      (by decide) (by decide)).2.2⟩

theorem mainRedirectUri_eq_iff (body : DcrBody) :
    mainRedirectUri body = "http://localhost:8888/callback" ↔
      (body.redirect_uris = none ∨ body.redirect_uris = some []
        ∨ ∃ t, body.redirect_uris = some ("http://localhost:8888/callback" :: t)) := by
  unfold mainRedirectUri
  match hu : body.redirect_uris with
  | none => simp [hu]
  | some [] => simp [hu]
  | some (u :: t) =>
    simp only [hu]
    constructor
    · intro he
      exact Or.inr (Or.inr ⟨t, by rw [he]⟩)
    · intro hcase
      rcases hcase with h | h | ⟨t2, h⟩
      · exact Option.noConfusion h
      · exact List.noConfusion (Option.some.inj h)
      · exact (List.cons.inj (Option.some.inj h)).1

/-- C5 counterexample: an HTTP 200 response whose body contains both
`client_id` and `client_secret` — the former as the empty string — is not
accepted: `main` aborts with its missing-credentials error, so acceptance
is not equivalent to the two fields being present. -/
theorem c5_counterexample_empty_cred :
    (DcrBody.mk (some "") (some "s1") none).client_id.isSome = true
    ∧ (DcrBody.mk (some "") (some "s1") none).client_secret.isSome = true
    ∧ registration 200 (DcrBody.mk (some "") (some "s1") none)
        ≠ .accepted (DcrBody.mk (some "") (some "s1") none)
    ∧ registration 200 (DcrBody.mk (some "") (some "s1") none) = .missingCreds := by
  decide

/-- C5 (amended): the single registration attempt is accepted exactly when
the HTTP status is 200 or 201 and the body carries non-empty `client_id`
and `client_secret` values; any other status makes `test_dcr` report the
status and raw body; a 200/201 response without both non-empty credentials
aborts with the fixed missing-credentials error, which echoes neither
status nor body.  There is no retry: the stage is a single call. -/
theorem c5_amended_registration (status : Nat) (body : DcrBody) :
    (registration status body = .accepted body ↔
        ((status = 200 ∨ status = 201) ∧ pyTruthy body.client_id = true
          ∧ pyTruthy body.client_secret = true))
    ∧ (¬(status = 200 ∨ status = 201) →
        test_dcr status body = .error (status, body)
          ∧ registration status body = .httpError status body)
    ∧ ((status = 200 ∨ status = 201) →
        ¬(pyTruthy body.client_id = true ∧ pyTruthy body.client_secret = true) →
        registration status body = .missingCreds) := by
  have hr := registration_eq status body
  by_cases hs : status = 200 ∨ status = 201
  · rw [if_pos hs] at hr
    by_cases hc1 : pyTruthy body.client_id = true
    · by_cases hc2 : pyTruthy body.client_secret = true
      · rw [if_pos ((Bool.and_eq_true _ _).mpr ⟨hc1, hc2⟩)] at hr
        rw [hr]
        exact ⟨⟨fun _ => ⟨hs, hc1, hc2⟩, fun _ => rfl⟩, fun hns => absurd hs hns,
          fun _ hnc => absurd ⟨hc1, hc2⟩ hnc⟩
      · rw [if_neg fun hc => hc2 ((Bool.and_eq_true _ _).mp hc).2] at hr
        rw [hr]
        exact ⟨⟨fun hacc => RegOutcome.noConfusion hacc, fun hcon => absurd hcon.2.2 hc2⟩,
          fun hns => absurd hs hns, fun _ _ => rfl⟩
    · rw [if_neg fun hc => hc1 ((Bool.and_eq_true _ _).mp hc).1] at hr
      rw [hr]
      exact ⟨⟨fun hacc => RegOutcome.noConfusion hacc, fun hcon => absurd hcon.2.1 hc1⟩,
        fun hns => absurd hs hns, fun _ _ => rfl⟩
  · rw [if_neg hs] at hr
    rw [hr]
    have h1 : ¬status = 200 := fun h => hs (Or.inl h)
    have h2 : ¬status = 201 := fun h => hs (Or.inr h)
    have hdcr : test_dcr status body = .error (status, body) := by
      unfold test_dcr
      simp [h1, h2]
    exact ⟨⟨fun hacc => RegOutcome.noConfusion hacc, fun hcon => absurd hcon.1 hs⟩,
      fun _ => ⟨hdcr, rfl⟩, fun hcon _ => absurd hcon hs⟩

/-- C5 witness: the amended registration contract at a rejected status and
at an accepted one. -/
theorem c5_amended_registration_witness :
    registration 404 (DcrBody.mk none none none)
      = .httpError 404 (DcrBody.mk none none none)
    ∧ registration 201 (DcrBody.mk (some "c1") (some "s1") none)
      = .accepted (DcrBody.mk (some "c1") (some "s1") none) :=
  ⟨((c5_amended_registration 404 (DcrBody.mk none none none)).2.1 (by omega)).2,
    (c5_amended_registration 201 (DcrBody.mk (some "c1") (some "s1") none)).1.mpr
      ⟨Or.inr rfl, by decide, by decide⟩⟩

/-- C6 counterexample: an HTTP 200 response whose body contains the
`access_token` field as the empty string is not accepted — `main` aborts
with its missing-token error — so acceptance is not equivalent to the
field being present. -/
theorem c6_counterexample_empty_token :
    (TokenBody.mk (some "") none none none).access_token.isSome = true
    ∧ tokenStage 200 (TokenBody.mk (some "") none none none)
        ≠ .accepted (TokenBody.mk (some "") none none none)
    ∧ tokenStage 200 (TokenBody.mk (some "") none none none) = .missingToken := by
  decide

/-- C6 (amended): the token exchange is accepted exactly when the HTTP
status is exactly 200 and the body carries a non-empty `access_token`;
any other status makes `test_token_exchange` report the status and raw
body (in particular a 400 response yields the error carrying 400); a 200
body without a non-empty `access_token` aborts with the fixed
missing-token error.  A 200 body with `access_token` "tok123" is accepted
as such. -/
theorem c6_amended_token_exchange (status : Nat) (body : TokenBody) :
    (tokenStage status body = .accepted body ↔
        (status = 200 ∧ pyTruthy body.access_token = true))
    ∧ (status ≠ 200 →
        test_token_exchange status body = .error (status, body)
          ∧ tokenStage status body = .httpError status body)
    ∧ tokenStage 200 (TokenBody.mk (some "tok123") (some "Bearer") (some 3600) none)
        = .accepted (TokenBody.mk (some "tok123") (some "Bearer") (some 3600) none)
    ∧ test_token_exchange 400 body = .error (400, body) := by
  have hr := tokenStage_eq status body
  have htb : test_token_exchange 400 body = .error (400, body) := by
    unfold test_token_exchange
    simp
  by_cases hs : status = 200
  · rw [if_pos hs] at hr
    by_cases ht : pyTruthy body.access_token = true
    · rw [if_pos ht] at hr
      rw [hr]
      exact ⟨⟨fun _ => ⟨hs, ht⟩, fun _ => rfl⟩, fun hns => absurd hs hns, by decide, htb⟩
    · rw [if_neg ht] at hr
      rw [hr]
      exact ⟨⟨fun hacc => TokOutcome.noConfusion hacc, fun hcon => absurd hcon.2 ht⟩,
        fun hns => absurd hs hns, by decide, htb⟩
  · rw [if_neg hs] at hr
    rw [hr]
    have hexc : test_token_exchange status body = .error (status, body) := by
      unfold test_token_exchange
      simp [hs]
    exact ⟨⟨fun hacc => TokOutcome.noConfusion hacc, fun hcon => absurd hcon.1 hs⟩,
      fun _ => ⟨hexc, rfl⟩, by decide, htb⟩

/-- C6 witness: the amended token-exchange contract at the two mocked
responses of the specification. -/
theorem c6_amended_token_exchange_witness :
    tokenStage 200 (TokenBody.mk (some "tok123") (some "Bearer") (some 3600) none)
      = .accepted (TokenBody.mk (some "tok123") (some "Bearer") (some 3600) none)
    ∧ tokenStage 400 (TokenBody.mk none none none none)
      = .httpError 400 (TokenBody.mk none none none none) :=
  ⟨(c6_amended_token_exchange 200 (TokenBody.mk none none none none)).2.2.1,
    ((c6_amended_token_exchange 400 (TokenBody.mk none none none none)).2.1 (by omega)).2⟩

/-- C1 (the code does not satisfy this claim): when the callback delivers
a code and a state, `test_authorization` returns the delivered code with
no comparison between the delivered state and the generated one — the
hypotheses place no constraint relating `rstate` to the generated state
`b64urlNoPad env.stateRandom` — and `main` then proceeds to the Token
Exchanger with that code. -/
theorem c1_state_never_validated (env : MainEnv) (code rstate : String)
    (hso : env.serverOk = true)
    (hw : wait_for_callback env.slotAt 300 = some (code, some rstate))
    (hs : env.dcrStatus = 200 ∨ env.dcrStatus = 201)
    (hc1 : pyTruthy env.dcrBody.client_id = true)
    (hc2 : pyTruthy env.dcrBody.client_secret = true) :
    (∀ cid ch m sc minput : String, ∀ srand : List Nat,
        test_authorization cid ch m sc srand true env.slotAt minput
          = .ok ⟨some code, 0, authParamsOf cid ch m sc srand⟩)
    ∧ ∃ req : TokenRequest, (mainRun env).tokenRequest = some req ∧ req.code = code := by
  refine ⟨fun cid ch m sc minput srand =>
    test_authorization_code cid ch m sc srand env.slotAt minput code rstate hw, ?_⟩
  rw [mainRun_reg_pass env hs hc1 hc2, hso,
    test_authorization_code _ _ _ _ _ env.slotAt env.manualInput code rstate hw,
    mainAfterReg_some _ _ _ _ code rfl]
  exact ⟨_, rfl, rfl⟩

/-- C1 witness: a run whose callback carries the state "attacker-state",
different from the generated state, yet the delivered code "AUTHCODE"
is returned and handed to the token exchange. -/
theorem c1_state_never_validated_witness :
    "attacker-state" ≠ b64urlNoPad attackEnv.stateRandom
    ∧ wait_for_callback attackEnv.slotAt 300 = some ("AUTHCODE", some "attacker-state")
    ∧ ∃ req : TokenRequest, (mainRun attackEnv).tokenRequest = some req
        ∧ req.code = "AUTHCODE" :=
  ⟨by decide, rfl,
    (c1_state_never_validated attackEnv "AUTHCODE" "attacker-state" rfl rfl
      (Or.inl rfl) (by decide) (by decide)).2⟩

/-- C8: in a run that reaches the manual-entry fallback, a whitespace-only
answer ends the flow as an explicit skip with exit code 0 and no token
exchange; a registration failure (bad status or missing/empty credentials)
ends the process with exit code 1 before any token exchange; and a
token-exchange failure (non-200 status or missing/empty access token)
ends the process with exit code 1. -/
theorem c8_exit_codes (env : MainEnv) :
    ((env.dcrStatus = 200 ∨ env.dcrStatus = 201) →
      pyTruthy env.dcrBody.client_id = true →
      pyTruthy env.dcrBody.client_secret = true →
      (env.serverOk = false ∨ wait_for_callback env.slotAt 300 = none) →
      pyStrip env.manualInput = "" →
      (mainRun env).exitCode = 0 ∧ (mainRun env).tokenRequest = none
        ∧ (mainRun env).manualPrompts = 1)
    ∧ (¬((env.dcrStatus = 200 ∨ env.dcrStatus = 201)
          ∧ pyTruthy env.dcrBody.client_id = true
          ∧ pyTruthy env.dcrBody.client_secret = true) →
        (mainRun env).exitCode = 1 ∧ (mainRun env).tokenRequest = none)
    ∧ ∀ req : TokenRequest, (mainRun env).tokenRequest = some req →
        ¬(env.tokenStatus = 200 ∧ pyTruthy env.tokenBody.access_token = true) →
        (mainRun env).exitCode = 1 := by
  refine ⟨?_, ?_, ?_⟩
  · intro hs hc1 hc2 hfall hempty
    rw [mainRun_reg_pass env hs hc1 hc2,
      test_authorization_manual _ _ _ _ _ _ _ _ hfall]
    have hm : (pyStrip env.manualInput == "") = true := by
      rw [hempty]
      rfl
    simp only [hm, if_true]
    rw [mainAfterReg_none _ _ _ _ rfl]
    exact ⟨rfl, rfl, rfl⟩
  · intro h
    rw [mainRun_reg_fail env h]
    exact ⟨rfl, rfl⟩
  · intro req hreq hfail
    by_cases hr : (env.dcrStatus = 200 ∨ env.dcrStatus = 201)
        ∧ pyTruthy env.dcrBody.client_id = true
        ∧ pyTruthy env.dcrBody.client_secret = true
    · obtain ⟨hs, hc1, hc2⟩ := hr
      rw [mainRun_reg_pass env hs hc1 hc2] at hreq ⊢
      cases hauth : test_authorization (env.dcrBody.client_id.getD "")
          (generate_pkce env.pkceRandom).2.1 (generate_pkce env.pkceRandom).2.2
          (if env.scope != "" then pyStrip env.scope else "")
          env.stateRandom env.serverOk env.slotAt env.manualInput with
      | error e => rfl
      | ok auth =>
        rw [hauth] at hreq
        cases hcode : auth.authCode with
        | none =>
          rw [mainAfterReg_none _ _ _ _ hcode] at hreq
          exact Option.noConfusion hreq
        | some code =>
          rw [mainAfterReg_some _ _ _ _ code hcode, tokAccepted_false hfail]
          rfl
    · rw [mainRun_reg_fail env hr] at hreq
      exact Option.noConfusion hreq

/-- C8 witness: the timeout-then-whitespace-answer run ends with exit
code 0, one manual prompt and no token exchange. -/
theorem c8_exit_codes_witness :
    (mainRun skipEnv).exitCode = 0 ∧ (mainRun skipEnv).tokenRequest = none
      ∧ (mainRun skipEnv).manualPrompts = 1 :=
  (c8_exit_codes skipEnv).1 (Or.inl rfl) (by decide) (by decide)
    (Or.inr (by
      unfold wait_for_callback
      show (waitTr (fun _ => ((none, none) : Slot)) (2 * 300) 0).1 = none
      rw [@waitTr_none (fun _ => ((none, none) : Slot)) (fun _ => rfl) (2 * 300) 0]))
    (by decide)

/-- C10: whenever the flow reaches them, the authorization request carries
the fixed literal redirect_uri "http://localhost:8888/callback", while the
token-exchange request carries the first element of the registration
response's `redirect_uris` list (falling back to the same literal when
that list is absent or empty); the two are byte-identical exactly when
`redirect_uris` is absent, empty, or starts with that literal. -/
theorem c10_redirect_uri_sources (env : MainEnv) :
    (∀ ap : AuthParams, (mainRun env).authParams = some ap →
        ap.redirect_uri = "http://localhost:8888/callback")
    ∧ ∀ req : TokenRequest, (mainRun env).tokenRequest = some req →
        req.redirect_uri = mainRedirectUri env.dcrBody
        ∧ (req.redirect_uri = "http://localhost:8888/callback" ↔
            (env.dcrBody.redirect_uris = none ∨ env.dcrBody.redirect_uris = some []
              ∨ ∃ t, env.dcrBody.redirect_uris
                  = some ("http://localhost:8888/callback" :: t))) := by
  by_cases hr : (env.dcrStatus = 200 ∨ env.dcrStatus = 201)
      ∧ pyTruthy env.dcrBody.client_id = true
      ∧ pyTruthy env.dcrBody.client_secret = true
  · obtain ⟨hs, hc1, hc2⟩ := hr
    have hmain := mainRun_reg_pass env hs hc1 hc2
    constructor
    · intro ap hap
      rw [hmain] at hap
      cases hauth : test_authorization (env.dcrBody.client_id.getD "")
          (generate_pkce env.pkceRandom).2.1 (generate_pkce env.pkceRandom).2.2
          (if env.scope != "" then pyStrip env.scope else "")
          env.stateRandom env.serverOk env.slotAt env.manualInput with
      | error e =>
        rw [hauth] at hap
        exact Option.noConfusion hap
      | ok auth =>
        rw [hauth, mainAfterReg_authParams] at hap
        rw [← Option.some.inj hap]
        exact test_authorization_params_literal _ _ _ _ _ _ _ _ auth hauth
    · intro req hreq
      rw [hmain] at hreq
      cases hauth : test_authorization (env.dcrBody.client_id.getD "")
          (generate_pkce env.pkceRandom).2.1 (generate_pkce env.pkceRandom).2.2
          (if env.scope != "" then pyStrip env.scope else "")
          env.stateRandom env.serverOk env.slotAt env.manualInput with
      | error e =>
        rw [hauth] at hreq
        exact Option.noConfusion hreq
      | ok auth =>
        rw [hauth] at hreq
        cases hcode : auth.authCode with
        | none =>
          rw [mainAfterReg_none _ _ _ _ hcode] at hreq
          exact Option.noConfusion hreq
        | some code =>
          rw [mainAfterReg_some _ _ _ _ code hcode] at hreq
          rw [← Option.some.inj hreq]
          exact ⟨rfl, mainRedirectUri_eq_iff env.dcrBody⟩
  · rw [mainRun_reg_fail env hr]
    exact ⟨fun ap hap => Option.noConfusion hap, fun req hreq => Option.noConfusion hreq⟩

/-- C10 witness: in the fully successful run whose registration response
echoes `redirect_uris = ["cursor://oauth-callback"]`, the token exchange
uses that first element while the authorization request used the
literal. -/
theorem c10_redirect_uri_sources_witness :
    (mainRun fullEnv).tokenRequest = some fullReq
    ∧ fullReq.redirect_uri = mainRedirectUri fullEnv.dcrBody
    ∧ (mainRun fullEnv).authParams
        = some (authParamsOf "c1" (generate_pkce (List.replicate 32 0)).2.1 "S256" ""
            (List.replicate 16 0)) :=
  ⟨rfl, ((c10_redirect_uri_sources fullEnv).2 fullReq rfl).1, rfl⟩

end OAuthProxy
